import Mathlib

/-!
Shallow embedding of the Landsky wedding lead-management service
(`app/db/models.py`, `app/services/offers.py`, `app/services/reminders.py`,
`app/api/routers/admin.py`, `app/api/routers/public.py`,
`app/email/sender.py`), together with theorems settling the spec claims.

Modelling conventions:
* timestamps (`DateTime` columns, `datetime.utcnow()`) are `Int` seconds;
  `Date` columns (`wedding_date`) are `Int` day numbers; Python
  `timedelta.days` is floored division by 86400 (`Int.fdiv`), and
  `now.date()` is the floored day number of `now`;
* the relational row is a Lean structure; each raw SQL conditional
  `UPDATE ... WHERE id=:id AND flag IS NULL` (resp. `flag=:ts`) becomes a
  function on the structure guarded by the same condition, returning the
  updated row and the rowcount-1 boolean;
* the outbound transport is an oracle: a boolean (per send) saying whether
  `send_email` returns or raises; a raised exception is a `raised` flag /
  `Except.error` in the result;
* `EmailLog` keeps the columns the claims talk about (event id, type,
  recipient, sent/failed status, created_at); the purely presentational
  columns (subject, provider, provider_message_id, error text) are elided.
-/

namespace Landsky

/-- The `events` row (`app/db/models.py`, class `Event`).  Client identity
fields not read by any dispatch/transition code path (names, venue, phone,
guest count, message, token) are elided; `email` and `wedding_date` are kept
because routing and eligibility read them. -/
structure Event where
  id : Nat
  status : String
  accepted : Bool
  selected_package : Option String
  email : String
  wedding_date : Int
  created_at : Int
  updated_at : Int
  last_email_sent_at : Option Int
  reminder_count : Int
  offer_sent_at : Option Int
  reminder_3d_sent_at : Option Int
  reminder_7d_sent_at : Option Int
  event_2d_sent_at : Option Int
  deriving Repr, DecidableEq

/-- One `email_logs` row (`app/db/models.py`, class `EmailLog`): one row per
send attempt, status `"sent"` or `"failed"`. -/
structure EmailLog where
  event_id : Nat
  email_type : String
  to_email : String
  status : String
  created_at : Int
  deriving Repr, DecidableEq

/-- One `status_change_logs` row (`app/db/models.py`, class
`StatusChangeLog`); actor metadata elided. -/
structure StatusChange where
  event_id : Nat
  old_status : String
  new_status : String
  source : String
  deriving Repr, DecidableEq

/-- Environment configuration (`app/core/config.py`): the values the
dispatch code reads. -/
structure Config where
  test_mode : Bool
  catering_team_email : String
  reminder_day_1 : Int
  reminder_day_2 : Int
  deriving Repr, DecidableEq

/-- Defaults from `app/core/config.py` (`REMINDER_DAY_1=3`,
`REMINDER_DAY_2=7`, `TEST_MODE` defaults on). -/
def defaultConfig : Config :=
  { test_mode := true
    catering_team_email := "catering@landskybar.com"
    reminder_day_1 := 3
    reminder_day_2 := 7 }

/-- The four nullable idempotency-flag columns of `events`. -/
inductive Flag
  | offer_sent
  | reminder_3d
  | reminder_7d
  | event_2d
  deriving Repr, DecidableEq

/-- Read the flag column named by `f`. -/
def Event.getFlag (e : Event) (f : Flag) : Option Int :=
  match f with
  | .offer_sent => e.offer_sent_at
  | .reminder_3d => e.reminder_3d_sent_at
  | .reminder_7d => e.reminder_7d_sent_at
  | .event_2d => e.event_2d_sent_at

/-- The SET-list of the claim UPDATE for flag `f`:
`offers.py:24` (`SET offer_sent_at=:now, last_email_sent_at=:now,
updated_at=:now`), `reminders.py:63`/`reminders.py:103` (same plus
`reminder_count=COALESCE(reminder_count,0)+1`), `reminders.py:147`
(`SET event_2d_sent_at=:now, last_email_sent_at=:now, updated_at=:now`). -/
def setClaimFields (e : Event) (f : Flag) (now : Int) : Event :=
  match f with
  | .offer_sent =>
      { e with offer_sent_at := some now, last_email_sent_at := some now
               updated_at := now }
  | .reminder_3d =>
      { e with reminder_3d_sent_at := some now, last_email_sent_at := some now
               reminder_count := e.reminder_count + 1, updated_at := now }
  | .reminder_7d =>
      { e with reminder_7d_sent_at := some now, last_email_sent_at := some now
               reminder_count := e.reminder_count + 1, updated_at := now }
  | .event_2d =>
      { e with event_2d_sent_at := some now, last_email_sent_at := some now
               updated_at := now }

/-- The atomic claim: `UPDATE events SET ... WHERE id=:id AND <flag> IS NULL`
followed by the `res.rowcount == 1` test.  Returns the updated row and
whether this caller won (rowcount = 1). -/
def claimFlag (e : Event) (f : Flag) (now : Int) : Event × Bool :=
  if e.getFlag f = none then (setClaimFields e f now, true) else (e, false)

/-- The compensating rollback: `UPDATE events SET <flag>=NULL ...
WHERE id=:id AND <flag>=:ts` (`offers.py:70`, `reminders.py:87`,
`reminders.py:126`, `reminders.py:170`); the reminder variants also run
`reminder_count=CASE WHEN reminder_count>0 THEN reminder_count-1 ELSE 0 END`. -/
def rollbackFlag (e : Event) (f : Flag) (ts : Int) : Event :=
  if e.getFlag f = some ts then
    match f with
    | .offer_sent => { e with offer_sent_at := none }
    | .reminder_3d =>
        { e with reminder_3d_sent_at := none
                 reminder_count :=
                   if 0 < e.reminder_count then e.reminder_count - 1 else 0 }
    | .reminder_7d =>
        { e with reminder_7d_sent_at := none
                 reminder_count :=
                   if 0 < e.reminder_count then e.reminder_count - 1 else 0 }
    | .event_2d => { e with event_2d_sent_at := none }
  else e

/-- A sequence of repeated claim attempts on the same lead and flag, each
with its own `datetime.utcnow()`; returns the final row and the list of
win/lose results in order. -/
def runClaims (e : Event) (f : Flag) (ts : List Int) : Event × List Bool :=
  match ts with
  | [] => (e, [])
  | t :: rest =>
      let r := claimFlag e f t
      let rec' := runClaims r.1 f rest
      (rec'.1, r.2 :: rec'.2)

theorem getFlag_setClaimFields (e : Event) (f : Flag) (now : Int) :
    (setClaimFields e f now).getFlag f = some now := by
  cases f <;> simp [setClaimFields, Event.getFlag]

theorem runClaims_allFalse (e : Event) (f : Flag) (ts : List Int) (v : Int)
    (h : e.getFlag f = some v) :
    runClaims e f ts = (e, List.replicate ts.length false) := by
  induction ts with
  | nil => simp [runClaims]
  | cons t rest ih =>
      simp only [runClaims, claimFlag, h]
      simp [ih, List.replicate]

/-- C1.  The claim step succeeds iff the flag was null before; after a
successful claim the flag holds the claim timestamp (non-null); and of any
non-empty sequence of repeated claims on a lead whose flag starts null,
exactly one succeeds (the first) and every later attempt reports false. -/
theorem C1_claim_at_most_once (e : Event) (f : Flag) (now : Int) :
    ((claimFlag e f now).2 = true ↔ e.getFlag f = none)
    ∧ ((claimFlag e f now).2 = true →
        (claimFlag e f now).1.getFlag f = some now)
    ∧ (∀ ts : List Int, e.getFlag f = none →
        (runClaims e f ts).2.count true = min ts.length 1) := by
  refine ⟨?_, ?_, ?_⟩
  · constructor
    · intro h
      by_contra hne
      cases hv : e.getFlag f with
      | none => exact hne hv
      | some v => simp [claimFlag, hv] at h
    · intro h; simp [claimFlag, h]
  · intro h
    cases hv : e.getFlag f with
    | none => simp [claimFlag, hv, getFlag_setClaimFields]
    | some v => simp [claimFlag, hv] at h
  · intro ts h
    cases ts with
    | nil => simp [runClaims]
    | cons t rest =>
        simp only [runClaims, claimFlag, h, if_pos]
        rw [runClaims_allFalse _ f rest t (getFlag_setClaimFields e f t)]
        simp [List.count_replicate]

/-- Closed witness for `C1_claim_at_most_once`: a fresh pending lead, three
claim attempts, exactly one success. -/
def sampleLead : Event :=
  { id := 1, status := "pending", accepted := false, selected_package := none
    email := "client@example.com", wedding_date := 20600, created_at := 0
    updated_at := 0, last_email_sent_at := none, reminder_count := 0
    offer_sent_at := none, reminder_3d_sent_at := none
    reminder_7d_sent_at := none, event_2d_sent_at := none }

theorem C1_claim_at_most_once_witness :
    (runClaims sampleLead .offer_sent [10, 20, 30]).2.count true
      = min ([10, 20, 30] : List Int).length 1 :=
  (C1_claim_at_most_once sampleLead .offer_sent 10).2.2
    [10, 20, 30] (by decide)

/-- C2.  Rollback precision: a rollback carrying timestamp `t2` leaves the
row untouched whenever the flag currently holds a different timestamp `t3`
(in particular a newer legitimate claim `t3 > t2`); and rolling back a
reminder claim immediately after it restores `reminder_count` to its
pre-claim value, which stays non-negative. -/
theorem C2_rollback_precision :
    (∀ (e : Event) (f : Flag) (t2 t3 : Int),
        e.getFlag f = some t3 → t3 ≠ t2 → rollbackFlag e f t2 = e)
    ∧ (∀ (e : Event) (f : Flag) (now : Int),
        e.getFlag f = none → 0 ≤ e.reminder_count →
        (rollbackFlag (claimFlag e f now).1 f now).reminder_count
            = e.reminder_count
        ∧ 0 ≤ (rollbackFlag (claimFlag e f now).1 f now).reminder_count) := by
  constructor
  · intro e f t2 t3 h3 hne
    have : ¬ e.getFlag f = some t2 := by
      rw [h3]; simp; intro h; exact hne h
    simp [rollbackFlag, this]
  · intro e f now hnull hcount
    have hclaim : (claimFlag e f now).1 = setClaimFields e f now := by
      simp [claimFlag, hnull]
    rw [hclaim]
    have hset := getFlag_setClaimFields e f now
    constructor
    · cases f <;>
        simp_all [rollbackFlag, setClaimFields, Event.getFlag] <;> omega
    · cases f <;>
        simp_all [rollbackFlag, setClaimFields, Event.getFlag] <;> omega

/-- Closed witness for `C2_rollback_precision`: a stale rollback (ts 10)
against a newer claim (ts 20) leaves the row unchanged, and a 3-day-reminder
claim/rollback pair restores the counter of `sampleLead`. -/
theorem C2_rollback_precision_witness :
    rollbackFlag (setClaimFields sampleLead .reminder_3d 20) .reminder_3d 10
        = setClaimFields sampleLead .reminder_3d 20
    ∧ (rollbackFlag (claimFlag sampleLead .reminder_3d 20).1 .reminder_3d
          20).reminder_count = sampleLead.reminder_count :=
  ⟨C2_rollback_precision.1 (setClaimFields sampleLead .reminder_3d 20)
      .reminder_3d 10 20 (by decide) (by decide),
   (C2_rollback_precision.2 sampleLead .reminder_3d 20 (by decide)
      (by decide)).1⟩

/-- `timedelta.days` of `(a - b)` for two second-resolution timestamps:
Python floor-divides by 86400. -/
def daysBetween (a b : Int) : Int := (a - b).fdiv 86400

/-- `now.date()`: the floored day number of a second-resolution timestamp. -/
def dateOf (now : Int) : Int := now.fdiv 86400

/-- Transport oracle: whether `send_email` succeeds for a given
(event id, email type) attempt; `false` means the provider call raises. -/
structure SendOracle where
  ok : Nat → String → Bool

/-- The all-successful transport. -/
def allSendsOk : SendOracle := ⟨fun _ _ => true⟩

/-- `send_email_logged` (`app/email/sender.py:66`): attempt the send, then
in a `finally` block append one audit row whose status is `"sent"` or
`"failed"`; a transport exception is re-raised (the returned boolean is
false).  The best-effort audit write itself is modelled as succeeding. -/
def send_email_logged (log : List EmailLog) (eid : Nat)
    (etype recipient : String) (now : Int) (ok : Bool) :
    List EmailLog × Bool :=
  (log ++ [{ event_id := eid, email_type := etype, to_email := recipient
             status := if ok then "sent" else "failed", created_at := now }],
   ok)

/-- `get_reminder_recipient` (`app/services/reminders.py:18`). -/
def get_reminder_recipient (cfg : Config) (e : Event) (kind : String) :
    String :=
  if cfg.test_mode then cfg.catering_team_email
  else if kind = "event_2d" then cfg.catering_team_email
  else e.email

/-- One iteration of the pending-leads loop of `reminder_job`
(`app/services/reminders.py:55`-`137`): compute `base` from
`offer_sent_at or last_email_sent_at`; then two independent `if` blocks, the
3-day one and the 7-day one, each doing claim → send → rollback-on-failure.
After the 3-day block's commit the ORM re-reads the row, so the 7-day block
sees the updated row but the original `base` local. -/
def tickPendingLead (cfg : Config) (o : SendOracle) (now : Int) (e : Event)
    (log : List EmailLog) : Event × List EmailLog :=
  match e.offer_sent_at.orElse (fun _ => e.last_email_sent_at) with
  | none => (e, log)
  | some base =>
      let step3 : Event × List EmailLog :=
        if e.reminder_3d_sent_at = none
            ∧ cfg.reminder_day_1 ≤ daysBetween now base then
          let c := claimFlag e .reminder_3d now
          if c.2 then
            let s := send_email_logged log e.id "offer_3d"
                (get_reminder_recipient cfg e "offer_3d") now
                (o.ok e.id "offer_3d")
            if s.2 then (c.1, s.1)
            else (rollbackFlag c.1 .reminder_3d now, s.1)
          else (c.1, log)
        else (e, log)
      let e1 := step3.1
      let log1 := step3.2
      if e1.reminder_7d_sent_at = none
          ∧ cfg.reminder_day_2 ≤ daysBetween now base then
        let c := claimFlag e1 .reminder_7d now
        if c.2 then
          let s := send_email_logged log1 e1.id "offer_7d"
              (get_reminder_recipient cfg e1 "offer_7d") now
              (o.ok e1.id "offer_7d")
          if s.2 then (c.1, s.1)
          else (rollbackFlag c.1 .reminder_7d now, s.1)
        else (c.1, log1)
      else (e1, log1)

/-- One iteration of the accepted-leads loop of `reminder_job`
(`app/services/reminders.py:141`-`176`): skip when `event_2d_sent_at` is
set, compute `days_until = (wedding_date - now.date()).days`, and dispatch
when `days_until <= 2` (no lower bound). -/
def tickAcceptedLead (cfg : Config) (o : SendOracle) (now : Int) (e : Event)
    (log : List EmailLog) : Event × List EmailLog :=
  if e.event_2d_sent_at ≠ none then (e, log)
  else
    let days_until := e.wedding_date - dateOf now
    if days_until ≤ 2 then
      let c := claimFlag e .event_2d now
      if c.2 then
        let s := send_email_logged log e.id "event_2d"
            (get_reminder_recipient cfg e "event_2d") now
            (o.ok e.id "event_2d")
        if s.2 then (c.1, s.1)
        else (rollbackFlag c.1 .event_2d now, s.1)
      else (c.1, log)
    else (e, log)

/-- Fold a per-lead tick over a list of leads, threading the audit log. -/
def processLeads (f : Event → List EmailLog → Event × List EmailLog)
    (es : List Event) (log : List EmailLog) : List Event × List EmailLog :=
  match es with
  | [] => ([], log)
  | e :: rest =>
      let r := f e log
      let rs := processLeads f rest r.2
      (r.1 :: rs.1, rs.2)

/-- Failure oracle for one `reminder_job` run: the engine kind, the outcome
of the `pg_try_advisory_lock` call (`none` = the call raised), whether the
two `db.query(Event)` scans succeed, and the transport oracle. -/
structure JobOracle where
  isSqlite : Bool
  lockResult : Option Bool
  pendingQueryOk : Bool
  acceptedQueryOk : Bool
  send : SendOracle

/-- The body of `reminder_job` after the advisory-lock preamble
(`app/services/reminders.py:53`-`176`): scan pending leads and run the
reminder blocks on each, then scan accepted leads and run the event-2d
block.  The function body sits in a `try`/`finally` with no `except`, so a
failing `db.query` propagates as an exception (`Except.error`); transport
failures are caught inside the per-lead blocks. -/
def reminder_job_body (cfg : Config) (o : JobOracle) (now : Int)
    (events : List Event) (log : List EmailLog) :
    Except String (List Event × List EmailLog) :=
  if ¬ o.pendingQueryOk then .error "db query failed: pending scan"
  else
    let pending := events.filter (fun e => e.status = "pending")
    let notPending := events.filter (fun e => ¬ e.status = "pending")
    let p := processLeads (tickPendingLead cfg o.send now) pending log
    if ¬ o.acceptedQueryOk then .error "db query failed: accepted scan"
    else
      let all1 := p.1 ++ notPending
      let accepted := all1.filter (fun e => e.status = "accepted")
      let notAccepted := all1.filter (fun e => ¬ e.status = "accepted")
      let a := processLeads (tickAcceptedLead cfg o.send now) accepted p.2
      .ok (a.1 ++ notAccepted, a.2)

/-- `reminder_job` (`app/services/reminders.py:31`): on non-sqlite engines
first try the advisory lock — a lock error or an un-acquired lock is caught
and the run is skipped (a normal return); then run the body. -/
def reminder_job (cfg : Config) (o : JobOracle) (now : Int)
    (events : List Event) (log : List EmailLog) :
    Except String (List Event × List EmailLog) :=
  if ¬ o.isSqlite then
    match o.lockResult with
    | none => .ok (events, log)
    | some false => .ok (events, log)
    | some true => reminder_job_body cfg o now events log
  else reminder_job_body cfg o now events log

/-- A pending lead whose offer went out 10 days before the tick under the
default 3/7 thresholds, both reminder flags still null. -/
def tenDayLead : Event := { sampleLead with offer_sent_at := some 0 }

/-- C3 counterexample.  At `now` = 10 days (864000 s) the single scheduler
tick dispatches BOTH `offer_3d` and `offer_7d` to the ten-day-old pending
lead: the 3-day and 7-day blocks are independent `if`s, so "at most one
dispatch per lead per tick" and "only offer_3d on that tick" are false. -/
theorem C3_counterexample :
    ((tickPendingLead defaultConfig allSendsOk 864000 tenDayLead []).2.map
        (fun l => l.email_type)) = ["offer_3d", "offer_7d"]
    ∧ ¬ ((tickPendingLead defaultConfig allSendsOk 864000 tenDayLead
          []).2.length ≤ 1) := by
  constructor <;> decide

/-- C3 amended.  Within one tick the 3-day block runs before the 7-day
block, but they are independent conditions: a pending lead whose base
timestamp is at least `reminder_day_2` days old with both reminder flags
null (and a working transport) is dispatched BOTH `offer_3d` and
`offer_7d` in that same tick, in that order. -/
theorem C3_both_reminders_one_tick (cfg : Config) (o : SendOracle)
    (now : Int) (e : Event) (log : List EmailLog) (base : Int)
    (hbase : e.offer_sent_at = some base)
    (h3null : e.reminder_3d_sent_at = none)
    (h7null : e.reminder_7d_sent_at = none)
    (hd12 : cfg.reminder_day_1 ≤ cfg.reminder_day_2)
    (hdue : cfg.reminder_day_2 ≤ daysBetween now base)
    (ok3 : o.ok e.id "offer_3d" = true)
    (ok7 : o.ok e.id "offer_7d" = true) :
    ((tickPendingLead cfg o now e log).2.map (fun l => l.email_type))
      = (log.map (fun l => l.email_type)) ++ ["offer_3d", "offer_7d"] := by
  have h13 : cfg.reminder_day_1 ≤ daysBetween now base :=
    le_trans hd12 hdue
  simp [tickPendingLead, hbase, h3null, h7null, h13, hdue, ok3, ok7,
    claimFlag, setClaimFields, Event.getFlag, send_email_logged,
    Option.orElse]

/-- Closed witness for `C3_both_reminders_one_tick` at the ten-day lead. -/
theorem C3_both_reminders_one_tick_witness :
    ((tickPendingLead defaultConfig allSendsOk 864000 tenDayLead []).2.map
        (fun l => l.email_type))
      = (([] : List EmailLog).map (fun l => l.email_type))
          ++ ["offer_3d", "offer_7d"] :=
  C3_both_reminders_one_tick defaultConfig allSendsOk 864000 tenDayLead []
    0 rfl rfl rfl (by decide) (by decide) rfl rfl

/-- C10.  For an accepted-loop lead with `event_2d_sent_at` null, the
eligibility test is exactly `wedding_date - now.date() <= 2` with no lower
bound: any lead at or past the 2-day horizon — including one whose wedding
date already lies in the past — is claimed and dispatched `event_2d`,
while a lead strictly beyond the horizon is left untouched. -/
theorem C10_event2d_no_lower_bound (cfg : Config) (o : SendOracle)
    (now : Int) (e : Event) (log : List EmailLog)
    (hnull : e.event_2d_sent_at = none)
    (hok : o.ok e.id "event_2d" = true) :
    (e.wedding_date - dateOf now ≤ 2 →
      ((tickAcceptedLead cfg o now e log).2.map (fun l => l.email_type))
          = (log.map (fun l => l.email_type)) ++ ["event_2d"]
      ∧ (tickAcceptedLead cfg o now e log).1.event_2d_sent_at = some now)
    ∧ (2 < e.wedding_date - dateOf now →
        tickAcceptedLead cfg o now e log = (e, log)) := by
  constructor
  · intro hdue
    simp [tickAcceptedLead, hnull, hdue, claimFlag, Event.getFlag,
      setClaimFields, send_email_logged, hok]
  · intro hfar
    have hno : ¬ (e.wedding_date - dateOf now ≤ 2) := by omega
    simp [tickAcceptedLead, hnull, hno]

/-- An accepted lead whose wedding day (day 5) is already five days in the
past at `now` = 864000 s (day 10). -/
def pastWeddingLead : Event :=
  { sampleLead with
    status := "accepted", accepted := true, wedding_date := 5 }

/-- Closed witness for `C10_event2d_no_lower_bound`: the past-date lead
(day difference −5) is still dispatched `event_2d`. -/
theorem C10_event2d_no_lower_bound_witness :
    ((tickAcceptedLead defaultConfig allSendsOk 864000 pastWeddingLead
        []).2.map (fun l => l.email_type))
      = (([] : List EmailLog).map (fun l => l.email_type)) ++ ["event_2d"]
    ∧ (tickAcceptedLead defaultConfig allSendsOk 864000 pastWeddingLead
        []).1.event_2d_sent_at = some 864000 :=
  (C10_event2d_no_lower_bound defaultConfig allSendsOk 864000
      pastWeddingLead [] rfl rfl).1 (by decide)

/-- A run whose pending-leads scan raises (database error) on a sqlite
engine, with everything else healthy. -/
def failingScanOracle : JobOracle :=
  { isSqlite := true, lockResult := some true, pendingQueryOk := false
    acceptedQueryOk := true, send := allSendsOk }

/-- C6 counterexample.  A database failure in the pending-leads scan
propagates out of `reminder_job` (its body is `try`/`finally` with no
`except`), so the scheduler callable CAN raise to its host. -/
theorem C6_counterexample :
    reminder_job defaultConfig failingScanOracle 864000 [sampleLead] []
      = Except.error "db query failed: pending scan" := rfl

/-- C6 amended.  `reminder_job` returns normally whenever the two lead
scans succeed, regardless of the advisory-lock outcome (error, not
acquired, acquired) and of any transport failures — those are all caught
inside — but a failing lead scan propagates as an exception. -/
theorem C6_job_no_raise_if_queries_ok (cfg : Config) (o : JobOracle)
    (now : Int) (events : List Event) (log : List EmailLog)
    (hp : o.pendingQueryOk = true) (ha : o.acceptedQueryOk = true) :
    ∃ out, reminder_job cfg o now events log = Except.ok out := by
  obtain ⟨sq, lr, pq, aq, snd⟩ := o
  simp only at hp ha
  subst hp
  subst ha
  cases sq with
  | false =>
      cases lr with
      | none => exact ⟨_, rfl⟩
      | some b =>
          cases b with
          | false => exact ⟨_, rfl⟩
          | true => exact ⟨_, rfl⟩
  | true => exact ⟨_, rfl⟩

/-- A fully healthy sqlite run with a transport that fails every send. -/
def allSendsFailOracle : JobOracle :=
  { isSqlite := true, lockResult := some true, pendingQueryOk := true
    acceptedQueryOk := true, send := ⟨fun _ _ => false⟩ }

/-- Closed witness for `C6_job_no_raise_if_queries_ok`: even with every
send failing, the tick over the ten-day lead returns normally. -/
theorem C6_job_no_raise_if_queries_ok_witness :
    ∃ out, reminder_job defaultConfig allSendsFailOracle 864000 [tenDayLead]
        [] = Except.ok out :=
  C6_job_no_raise_if_queries_ok defaultConfig allSendsFailOracle 864000
    [tenDayLead] [] rfl rfl

/-- Result of one `send_offer_flow` call: the final row, the audit log,
whether the call re-raised the transport exception, and whether it was
skipped because the offer was already claimed. -/
structure OfferOutcome where
  event : Event
  log : List EmailLog
  raised : Bool
  skipped : Bool
  deriving Repr, DecidableEq

/-- `send_offer_flow` (`app/services/offers.py:14`).  With a session
(`hasDb = true`): claim `offer_sent_at` at `claim_ts` (skip silently when
already set); send the internal notification then the offer (each via
`send_email_logged`); on success reset the reminder flags and counter at a
fresh timestamp `after_ts`; on a transport exception roll the claim back
(`WHERE offer_sent_at=:ts`) and re-raise.  Without a session the two sends
happen unclaimed and unlogged and an exception propagates. -/
def send_offer_flow (cfg : Config) (hasDb : Bool) (okInternal okOffer : Bool)
    (e : Event) (log : List EmailLog) (claim_ts after_ts : Int) :
    OfferOutcome :=
  if hasDb then
    if e.offer_sent_at = none then
      let e1 := { e with offer_sent_at := some claim_ts
                         last_email_sent_at := some claim_ts
                         updated_at := claim_ts }
      let s1 := send_email_logged log e.id "internal_new_inquiry"
          cfg.catering_team_email claim_ts okInternal
      if s1.2 then
        let recipient := if cfg.test_mode then cfg.catering_team_email
                         else e.email
        let s2 := send_email_logged s1.1 e.id "offer" recipient claim_ts
            okOffer
        if s2.2 then
          let e2 := { e1 with last_email_sent_at := some after_ts
                              reminder_count := 0
                              reminder_3d_sent_at := none
                              reminder_7d_sent_at := none
                              updated_at := after_ts }
          { event := e2, log := s2.1, raised := false, skipped := false }
        else
          { event := rollbackFlag e1 .offer_sent claim_ts, log := s2.1
            raised := true, skipped := false }
      else
        { event := rollbackFlag e1 .offer_sent claim_ts, log := s1.1
          raised := true, skipped := false }
    else
      { event := e, log := log, raised := false, skipped := true }
  else
    { event := e, log := log, raised := ¬ (okInternal ∧ okOffer)
      skipped := false }

/-- A freshly registered lead (`app/api/routers/public.py:28`): status
pending, nothing sent, counter zero. -/
def newLead (id : Nat) (email : String) (wd now : Int) : Event :=
  { id := id, status := "pending", accepted := false
    selected_package := none, email := email, wedding_date := wd
    created_at := now, updated_at := now, last_email_sent_at := none
    reminder_count := 0, offer_sent_at := none
    reminder_3d_sent_at := none, reminder_7d_sent_at := none
    event_2d_sent_at := none }

/-- What `POST /register` leaves behind and returns. -/
structure RegisterOutcome where
  event : Event
  log : List EmailLog
  message : String
  deriving Repr, DecidableEq

/-- `register` (`app/api/routers/public.py:26`): insert the new lead, run
`send_offer_flow` with the session, and swallow any exception from it
(`except Exception: logger.exception(...)`), always answering the fixed
success message. -/
def register (cfg : Config) (okInternal okOffer : Bool) (id : Nat)
    (email : String) (wd claim_ts after_ts : Int) : RegisterOutcome :=
  let e := newLead id email wd claim_ts
  let out := send_offer_flow cfg true okInternal okOffer e [] claim_ts
      after_ts
  { event := out.event, log := out.log
    message := "Vaš upit je zaprimljen." }

/-- C5.  When the transport raises during the initial dispatch of a lead
whose `offer_sent_at` is null: the claim is rolled back (`offer_sent_at`
null again), the exception is re-raised, exactly one `"failed"` audit row
was appended; and `register` swallows the exception, still answers its
success message, and the lead row persists with `offer_sent_at` null. -/
theorem C5_failed_send_rolls_back (cfg : Config) (okI okO : Bool)
    (e : Event) (log : List EmailLog) (t1 t2 : Int) (id : Nat)
    (em : String) (wd : Int)
    (hnull : e.offer_sent_at = none)
    (hfail : okI = false ∨ okO = false) :
    (send_offer_flow cfg true okI okO e log t1 t2).event.offer_sent_at
        = none
    ∧ (send_offer_flow cfg true okI okO e log t1 t2).raised = true
    ∧ (send_offer_flow cfg true okI okO e log t1 t2).log.countP
          (fun l => l.status == "failed")
        = log.countP (fun l => l.status == "failed") + 1
    ∧ (register cfg okI okO id em wd t1 t2).message
        = "Vaš upit je zaprimljen."
    ∧ (register cfg okI okO id em wd t1 t2).event.id = id
    ∧ (register cfg okI okO id em wd t1 t2).event.offer_sent_at = none :=
  by
  have hreg : (newLead id em wd t1).offer_sent_at = none := rfl
  rcases hfail with h | h <;> subst h
  · cases okO <;>
      simp [send_offer_flow, register, hnull, hreg, send_email_logged,
        rollbackFlag, Event.getFlag, newLead, List.countP_append,
        List.countP_cons]
  · cases okI <;>
      simp [send_offer_flow, register, hnull, hreg, send_email_logged,
        rollbackFlag, Event.getFlag, newLead, List.countP_append,
        List.countP_cons]

/-- Closed witness for `C5_failed_send_rolls_back`: offer send fails on a
fresh lead. -/
theorem C5_failed_send_rolls_back_witness :
    (send_offer_flow defaultConfig true true false sampleLead [] 0 1
        ).event.offer_sent_at = none
    ∧ (send_offer_flow defaultConfig true true false sampleLead [] 0 1
        ).raised = true
    ∧ (send_offer_flow defaultConfig true true false sampleLead [] 0 1
        ).log.countP (fun l => l.status == "failed")
      = ([] : List EmailLog).countP (fun l => l.status == "failed") + 1
    ∧ (register defaultConfig true false 7 "x@example.com" 20600 0 1
        ).message = "Vaš upit je zaprimljen."
    ∧ (register defaultConfig true false 7 "x@example.com" 20600 0 1
        ).event.id = 7
    ∧ (register defaultConfig true false 7 "x@example.com" 20600 0 1
        ).event.offer_sent_at = none :=
  C5_failed_send_rolls_back defaultConfig true false sampleLead [] 0 1 7
    "x@example.com" 20600 rfl (Or.inr rfl)

/-- `PACKAGE_LABELS` (`app/email/templates.py:8`). -/
def PACKAGE_LABELS : List (String × String) :=
  [("classic", "Classic"), ("premium", "Premium"), ("signature", "Signature")]

/-- `PACKAGE_LABELS.get((e.selected_package or "").lower(),
e.selected_package or "—")` (`public.py:81`). -/
def packageLabelView (sp : Option String) : String :=
  let raw := match sp with | none => "" | some s => s
  match PACKAGE_LABELS.lookup raw.toLower with
  | some lbl => lbl
  | none =>
      match sp with
      | none => "—"
      | some s => if s = "" then "—" else s

/-- `PACKAGE_LABELS.get(p, p)` (`public.py:102`). -/
def packageLabelOr (p : String) : String :=
  (PACKAGE_LABELS.lookup p).getD p

/-- The possible responses of `GET /accept`. -/
inductive AcceptView
  | invalidToken
  | alreadyAccepted (label : String)
  | alreadyDeclined
  | invalidPackage
  | acceptedNow (label : String)
  | selectionPage
  deriving Repr, DecidableEq

/-- `accept_get` (`app/api/routers/public.py:69`): token lookup (`none` =
unknown token, 404); already-accepted and already-declined leads get a
read-only view before the package parameter is even examined; a truthy
package is stripped/lowercased and validated against `PACKAGE_LABELS`; a
valid one flips the lead to accepted, records the package, appends a
status-change audit row (`log_status_change` skips it when old = new), and
answers the thank-you view; no package shows the selection page.  The
handler contains no email send, so the email audit log is returned
untouched on every path. -/
def accept_get (e : Option Event) (package : Option String) (now : Int)
    (sLog : List StatusChange) (eLog : List EmailLog) :
    Option Event × List StatusChange × List EmailLog × AcceptView :=
  match e with
  | none => (none, sLog, eLog, .invalidToken)
  | some e =>
      if e.status = "accepted" then
        (some e, sLog, eLog,
         .alreadyAccepted (packageLabelView e.selected_package))
      else if e.status = "declined" then
        (some e, sLog, eLog, .alreadyDeclined)
      else
        match package with
        | some pkg =>
            if pkg ≠ "" then
              let p := pkg.trim.toLower
              if (PACKAGE_LABELS.lookup p).isSome then
                let oldStatus := e.status
                let e1 := { e with accepted := true, status := "accepted"
                                   selected_package := some p
                                   updated_at := now }
                let sLog1 :=
                  if oldStatus = "accepted" then sLog
                  else sLog ++ [{ event_id := e.id, old_status := oldStatus
                                  new_status := "accepted"
                                  source := "guest_accept_link" }]
                (some e1, sLog1, eLog, .acceptedNow (packageLabelOr p))
              else (some e, sLog, eLog, .invalidPackage)
            else (some e, sLog, eLog, .selectionPage)
        | none => (some e, sLog, eLog, .selectionPage)

/-- The possible responses of `POST /decline/confirm`. -/
inductive DeclineView
  | invalidToken
  | alreadyDeclined
  | declinedNow
  deriving Repr, DecidableEq

/-- `decline_confirm_post` (`app/api/routers/public.py:232`). -/
def decline_confirm_post (e : Option Event) (now : Int) :
    Option Event × DeclineView :=
  match e with
  | none => (none, .invalidToken)
  | some e =>
      if e.status = "declined" then (some e, .alreadyDeclined)
      else
        (some { e with accepted := false, status := "declined"
                       updated_at := now },
         .declinedNow)

/-- `admin_set_status` (`app/api/routers/admin.py:139`): writes the payload
status and `updated_at` — and nothing else. -/
def admin_set_status (e : Event) (status : String) (now : Int) : Event :=
  { e with status := status, updated_at := now }

/-- `admin_accept` (`app/api/routers/admin.py:157`). -/
def admin_accept (e : Event) (now : Int) : Event :=
  { e with accepted := true, status := "accepted", updated_at := now }

/-- `admin_decline` (`app/api/routers/admin.py:175`). -/
def admin_decline (e : Event) (now : Int) : Event :=
  { e with accepted := false, status := "declined", updated_at := now }

/-- The C4 invariant: the boolean mirror agrees with the status string. -/
def acceptedMatchesStatus (e : Event) : Prop :=
  e.accepted = (e.status == "accepted")

instance (e : Event) : Decidable (acceptedMatchesStatus e) := by
  unfold acceptedMatchesStatus; infer_instance

/-- A lead in the accepted state (boolean and string in agreement). -/
def acceptedLead : Event :=
  { sampleLead with
    status := "accepted", accepted := true
    selected_package := some "premium" }

/-- C4.  The invariant `accepted == (status == "accepted")` is preserved by
the client accept link, the client decline confirmation, `admin_accept`
and `admin_decline` — but `admin_set_status` writes the status string
without touching the boolean: reverting `acceptedLead` to `"pending"`
leaves `accepted = true` against `status = "pending"`, violating the
invariant on a reachable state. -/
theorem C4_admin_set_status_breaks_invariant :
    acceptedMatchesStatus acceptedLead
    ∧ ¬ acceptedMatchesStatus (admin_set_status acceptedLead "pending" 5)
    ∧ (admin_set_status acceptedLead "pending" 5).accepted = true
    ∧ (admin_set_status acceptedLead "pending" 5).status = "pending" := by
  refine ⟨by decide, by decide, by decide, by decide⟩

/-- The four non-override transitions all preserve the invariant (context
for C4: the slip is isolated to `admin_set_status`). -/
theorem C4_other_transitions_keep_invariant (e : Event)
    (pkg : Option String) (now : Int) (sLog : List StatusChange)
    (eLog : List EmailLog) :
    (∀ e1, (accept_get (some e) pkg now sLog eLog).1 = some e1 →
        acceptedMatchesStatus e → acceptedMatchesStatus e1)
    ∧ (∀ e1, (decline_confirm_post (some e) now).1 = some e1 →
        acceptedMatchesStatus e → acceptedMatchesStatus e1)
    ∧ acceptedMatchesStatus (admin_accept e now)
    ∧ acceptedMatchesStatus (admin_decline e now) := by
  refine ⟨?_, ?_, by simp [admin_accept, acceptedMatchesStatus],
    by simp [admin_decline, acceptedMatchesStatus]⟩
  · intro e1 h hinv
    simp only [accept_get] at h
    by_cases hacc : e.status = "accepted"
    · simp [hacc] at h
      subst h
      exact hinv
    · by_cases hdec : e.status = "declined"
      · simp [hacc, hdec] at h
        subst h
        exact hinv
      · cases pkg with
        | none =>
            simp [hacc, hdec] at h
            subst h
            exact hinv
        | some pkg =>
            by_cases hne : pkg = ""
            · simp [hacc, hdec, hne] at h
              subst h
              exact hinv
            · by_cases hv :
                  (PACKAGE_LABELS.lookup pkg.trim.toLower).isSome = true
              · simp [hacc, hdec, hne, hv] at h
                subst h
                simp [acceptedMatchesStatus]
              · simp [hacc, hdec, hne, hv] at h
                subst h
                exact hinv
  · intro e1 h hinv
    simp only [decline_confirm_post] at h
    by_cases hdec : e.status = "declined"
    · simp [hdec] at h
      subst h
      exact hinv
    · simp [hdec] at h
      subst h
      simp [acceptedMatchesStatus]

/-- Closed witness for `C4_other_transitions_keep_invariant`: accepting
`sampleLead` through the link with `package=premium` keeps the invariant. -/
theorem C4_other_transitions_keep_invariant_witness :
    ∀ e1, (accept_get (some sampleLead) (some "premium") 5 [] []).1
        = some e1 →
      acceptedMatchesStatus sampleLead → acceptedMatchesStatus e1 :=
  (C4_other_transitions_keep_invariant sampleLead (some "premium") 5 []
    []).1

/-- C9.  Visiting the accept link of a lead that is already accepted or
already declined — with or without a package parameter, matching or not —
returns the corresponding read-only view and changes nothing: the row, the
status-change audit and the email audit are returned untouched (the status
is checked before the package parameter is even read). -/
theorem C9_revisit_is_noop (e : Event) (pkg : Option String) (now : Int)
    (sLog : List StatusChange) (eLog : List EmailLog)
    (h : e.status = "accepted" ∨ e.status = "declined") :
    (accept_get (some e) pkg now sLog eLog).1 = some e
    ∧ (accept_get (some e) pkg now sLog eLog).2.1 = sLog
    ∧ (accept_get (some e) pkg now sLog eLog).2.2.1 = eLog
    ∧ (accept_get (some e) pkg now sLog eLog).2.2.2
        = (if e.status = "accepted"
           then .alreadyAccepted (packageLabelView e.selected_package)
           else .alreadyDeclined) := by
  rcases h with h | h
  · simp [accept_get, h]
  · by_cases hacc : e.status = "accepted"
    · rw [hacc] at h
      simp at h
    · simp [accept_get, hacc, h]

/-- Closed witness for `C9_revisit_is_noop`: revisiting the accepted lead
with a package differing from its recorded one changes nothing. -/
theorem C9_revisit_is_noop_witness :
    (accept_get (some acceptedLead) (some "classic") 9 [] []).1
        = some acceptedLead
    ∧ (accept_get (some acceptedLead) (some "classic") 9 [] []).2.1 = []
    ∧ (accept_get (some acceptedLead) (some "classic") 9 [] []).2.2.1 = []
    ∧ (accept_get (some acceptedLead) (some "classic") 9 [] []).2.2.2
        = (if acceptedLead.status = "accepted"
           then .alreadyAccepted
              (packageLabelView acceptedLead.selected_package)
           else .alreadyDeclined) :=
  C9_revisit_is_noop acceptedLead (some "classic") 9 [] [] (Or.inl rfl)

/-- The JSON/HTTP outcomes of the two admin send endpoints. -/
inductive AdminResp
  | notFound
  | ok
  | okSkipped
  | raised
  deriving Repr, DecidableEq

/-- `admin_send_reminder_now` (`app/api/routers/admin.py:260`): look up the
lead (404 when absent), then unconditionally send one `manual_reminder`
email via `send_email_logged` and bump `last_email_sent_at`/`updated_at`;
there is no eligibility computation, no idempotency-flag claim and no
skip path; a transport exception propagates (after its audit row). -/
def admin_send_reminder_now (cfg : Config) (sendOk : Bool)
    (e : Option Event) (log : List EmailLog) (now : Int) :
    Option Event × List EmailLog × AdminResp :=
  match e with
  | none => (none, log, .notFound)
  | some e =>
      let recipient := if cfg.test_mode then cfg.catering_team_email
                       else e.email
      let s := send_email_logged log e.id "manual_reminder" recipient now
          sendOk
      if s.2 then
        (some { e with last_email_sent_at := some now, updated_at := now },
         s.1, .ok)
      else (some e, s.1, .raised)

/-- A healthy sqlite scheduler run with a working transport. -/
def healthyJobOracle : JobOracle :=
  { isSqlite := true, lockResult := some true, pendingQueryOk := true
    acceptedQueryOk := true, send := allSendsOk }

/-- An accepted lead whose `event_2d` reminder has already been claimed:
no reminder kind in the scheduler is due for it. -/
def doneLead : Event :=
  { sampleLead with
    status := "accepted", accepted := true, wedding_date := 5
    event_2d_sent_at := some 100 }

/-- C7 counterexample.  For `doneLead` the scheduler's own tick dispatches
nothing (no reminder kind is due), yet `admin_send_reminder_now` sends a
`manual_reminder` email and answers ok — it performs no eligibility
recomputation and no claim, and has no "nothing due" error path. -/
theorem C7_counterexample :
    reminder_job defaultConfig healthyJobOracle 864000 [doneLead] []
      = Except.ok ([doneLead], [])
    ∧ ((admin_send_reminder_now defaultConfig true (some doneLead) []
          864000).2.1.map (fun l => l.email_type)) = ["manual_reminder"]
    ∧ (admin_send_reminder_now defaultConfig true (some doneLead) []
          864000).2.2 = .ok := by
  refine ⟨rfl, by decide, by decide⟩

/-- C7 amended.  `admin_send_reminder_now` is unconditional: for every
existing lead it appends exactly one `manual_reminder` audit row, leaves
the status, the reminder counter and every idempotency flag untouched, and
answers ok on transport success (re-raising on transport failure). -/
theorem C7_manual_reminder_unconditional (cfg : Config) (sendOk : Bool)
    (e : Event) (log : List EmailLog) (now : Int) :
    ((admin_send_reminder_now cfg sendOk (some e) log now).2.1.map
        (fun l => l.email_type))
      = (log.map (fun l => l.email_type)) ++ ["manual_reminder"]
    ∧ (admin_send_reminder_now cfg sendOk (some e) log now).1.map
          (fun e1 => (e1.offer_sent_at, e1.reminder_3d_sent_at,
            e1.reminder_7d_sent_at, e1.event_2d_sent_at, e1.status,
            e1.reminder_count))
        = some (e.offer_sent_at, e.reminder_3d_sent_at,
            e.reminder_7d_sent_at, e.event_2d_sent_at, e.status,
            e.reminder_count)
    ∧ (admin_send_reminder_now cfg sendOk (some e) log now).2.2
        = (if sendOk then .ok else .raised) := by
  cases sendOk <;> simp [admin_send_reminder_now, send_email_logged]

/-- The 60-second dedupe query of `admin_resend_offer`
(`app/api/routers/admin.py:227`): is there a `resend_offer` audit row for
this lead with `created_at >= now - 60`? -/
def resendRecent (log : List EmailLog) (eid : Nat) (now : Int) : Bool :=
  log.any (fun l => l.event_id == eid && l.email_type == "resend_offer"
    && decide (now - 60 ≤ l.created_at))

/-- `admin_resend_offer` (`app/api/routers/admin.py:193`): look up the lead
(404 when absent); if a `resend_offer` audit row for it lies within the
60-second window, skip (send nothing, change nothing); otherwise send the
offer again via `send_email_logged` with type `resend_offer` and bump only
`last_email_sent_at`/`updated_at` — `offer_sent_at` is never read or
written.  The Postgres-only per-event advisory-lock preamble is pure
anti-concurrency plumbing (on sqlite it is not even attempted); this
models the sequential, lock-acquired execution. -/
def admin_resend_offer (cfg : Config) (sendOk : Bool) (e : Option Event)
    (log : List EmailLog) (now : Int) :
    Option Event × List EmailLog × AdminResp :=
  match e with
  | none => (none, log, .notFound)
  | some e =>
      if resendRecent log e.id now then (some e, log, .okSkipped)
      else
        let recipient := if cfg.test_mode then cfg.catering_team_email
                         else e.email
        let s := send_email_logged log e.id "resend_offer" recipient now
            sendOk
        if s.2 then
          (some { e with last_email_sent_at := some now
                         updated_at := now },
           s.1, .ok)
        else (some e, s.1, .raised)

/-- C8.  `admin_resend_offer` never modifies `offer_sent_at` (on any path,
whatever its current value); when a `resend_offer` audit row for the lead
lies within the preceding 60 seconds it sends nothing and answers skipped;
otherwise (transport working) it sends and appends exactly one
`resend_offer` audit row. -/
theorem C8_resend_dedupe_frame (cfg : Config) (sendOk : Bool) (e : Event)
    (log : List EmailLog) (now : Int) :
    (admin_resend_offer cfg sendOk (some e) log now).1.map
        (fun e1 => e1.offer_sent_at) = some e.offer_sent_at
    ∧ (resendRecent log e.id now = true →
        admin_resend_offer cfg sendOk (some e) log now
          = (some e, log, .okSkipped))
    ∧ (resendRecent log e.id now = false → sendOk = true →
        (admin_resend_offer cfg sendOk (some e) log now).2.1
            = log ++ [{ event_id := e.id, email_type := "resend_offer"
                        to_email := if cfg.test_mode then
                            cfg.catering_team_email else e.email
                        status := "sent", created_at := now }]
        ∧ (admin_resend_offer cfg sendOk (some e) log now).2.2 = .ok) := by
  refine ⟨?_, ?_, ?_⟩
  · by_cases hr : resendRecent log e.id now <;> cases sendOk <;>
      simp [admin_resend_offer, send_email_logged, hr]
  · intro hr
    simp [admin_resend_offer, hr]
  · intro hr hs
    subst hs
    simp [admin_resend_offer, hr, send_email_logged]

/-- A lead whose offer is already marked sent, and an audit log whose only
`resend_offer` row is 90 seconds old: outside the dedupe window. -/
def resendLead : Event := { sampleLead with offer_sent_at := some 50 }

def staleResendLog : List EmailLog :=
  [{ event_id := 1, email_type := "resend_offer"
     to_email := "catering@landskybar.com", status := "sent"
     created_at := 10 }]

/-- Closed witness for `C8_resend_dedupe_frame`: at `now = 100` the
90-second-old entry does not dedupe, the resend goes out, and
`offer_sent_at` stays `some 50`. -/
theorem C8_resend_dedupe_frame_witness :
    (admin_resend_offer defaultConfig true (some resendLead) staleResendLog
        100).1.map (fun e1 => e1.offer_sent_at)
      = some resendLead.offer_sent_at
    ∧ ((admin_resend_offer defaultConfig true (some resendLead)
          staleResendLog 100).2.1
        = staleResendLog
            ++ [{ event_id := resendLead.id, email_type := "resend_offer"
                  to_email := if defaultConfig.test_mode then
                      defaultConfig.catering_team_email else resendLead.email
                  status := "sent", created_at := 100 }]
        ∧ (admin_resend_offer defaultConfig true (some resendLead)
            staleResendLog 100).2.2 = .ok) :=
  ⟨(C8_resend_dedupe_frame defaultConfig true resendLead staleResendLog
      100).1,
   (C8_resend_dedupe_frame defaultConfig true resendLead staleResendLog
      100).2.2 (by decide) rfl⟩

end Landsky
